import Mathlib

/-!
Verification of the EC2 `InstanceWrapper` class (instance.py): a shallow
embedding of its methods (`create`, `display`, `terminate`, `start`, `stop`,
`get_images`, `get_instance_types`) over an abstract provider client, with
theorems about error handling, frame conditions and output.

The provider client is a record of response functions; Python dictionary and
list lookups are modelled as fallible operations (`KeyError` / `IndexError`),
distinct from the provider's `ClientError`, because only the latter is caught
by the `except ClientError` blocks in the source.
-/

/-- A provider-side request error (boto3 `ClientError`), carrying the
provider error code and message read from `err.response["Error"]`. -/
structure ClientErr where
  code : String
  message : String
deriving Repr, DecidableEq

/-- The kinds of exceptions the wrapper methods can raise: a caught-and-reraised
provider `ClientError`, or an unguarded Python `KeyError` / `IndexError` from a
dictionary or list lookup. -/
inductive PyError where
  | client (e : ClientErr)
  | keyError (key : String)
  | indexError
deriving Repr, DecidableEq

/-- An opaque raw provider response, as returned by `start_instances`,
`stop_instances` and `terminate_instances`. -/
structure ProviderResponse where
  payload : String
deriving Repr, DecidableEq

/-- The nested `State` dictionary of an instance record; `name` is the
`Name` key, absent keys are `none`. -/
structure InstState where
  name : Option String
deriving Repr, DecidableEq

/-- An instance record (a Python dictionary): each field is a key that may be
absent. Used both for the tracked instance stored by `create` and for the
snapshots returned by `describe_instances`. -/
structure InstanceRec where
  instanceId : Option String
  imageId : Option String
  instanceType : Option String
  keyName : Option String
  vpcId : Option String
  publicIpAddress : Option String
  state : Option InstState
deriving Repr, DecidableEq

/-- The request dictionary built by `create`: `ImageId`, `InstanceType`,
`KeyName`, optional `SecurityGroupIds`, plus `MinCount` and `MaxCount`. -/
structure RunReq where
  imageId : String
  instanceType : String
  keyName : String
  securityGroupIds : Option (List String)
  minCount : Nat
  maxCount : Nat
deriving Repr, DecidableEq

/-- Response of `run_instances`: the `Instances` list. -/
structure RunInstancesResponse where
  instances : List InstanceRec
deriving Repr, DecidableEq

/-- One reservation of a `describe_instances` response: its `Instances` list. -/
structure Reservation where
  instances : List InstanceRec
deriving Repr, DecidableEq

/-- Response of `describe_instances`: the `Reservations` list. -/
structure DescribeInstancesResponse where
  reservations : List Reservation
deriving Repr, DecidableEq

/-- An image record returned by `describe_images` (opaque to the wrapper). -/
structure Image where
  imageId : String
deriving Repr, DecidableEq

/-- Response of `describe_images`: the `Images` list. -/
structure DescribeImagesResponse where
  images : List Image
deriving Repr, DecidableEq

/-- One instance-type record of a `describe_instance_types` response: the
`InstanceType` name key (may be absent) and, for the provider-side filter
model, the architectures it supports. -/
structure InstanceTypeInfo where
  instanceType : Option String
  supportedArchitectures : List String
deriving Repr, DecidableEq

/-- Response of `describe_instance_types`: the `InstanceTypes` list. -/
structure DescribeInstanceTypesResponse where
  instanceTypes : List InstanceTypeInfo
deriving Repr, DecidableEq

/-- A `Name`/`Values` filter as passed to `describe_instance_types`. -/
structure ApiFilter where
  name : String
  values : List String
deriving Repr, DecidableEq

/-- A provider request issued by the wrapper, recorded for frame reasoning. -/
inductive Request where
  | runInstances (params : RunReq)
  | waiterWait (waiterName : String) (instanceIds : List String)
  | describeInstances (instanceIds : List String)
  | terminateInstances (instanceIds : List String)
  | startInstances (instanceIds : List String)
  | stopInstances (instanceIds : List String)
  | describeImages (imageIds : List String)
  | describeInstanceTypes (filters : List ApiFilter)
deriving Repr, DecidableEq

/-- The provider client: one response function per API call the wrapper makes.
Provider failures are `ClientErr` values (boto3 raises `ClientError`);
`waiterWait name ids` models `get_waiter(name).wait(InstanceIds=ids)`. -/
structure EC2Client where
  run_instances : RunReq → Except ClientErr RunInstancesResponse
  waiterWait : String → List String → Except ClientErr Unit
  describe_instances : List String → Except ClientErr DescribeInstancesResponse
  terminate_instances : List String → Except ClientErr ProviderResponse
  start_instances : List String → Except ClientErr ProviderResponse
  stop_instances : List String → Except ClientErr ProviderResponse
  describe_images : List String → Except ClientErr DescribeImagesResponse
  describe_instance_types : List ApiFilter → Except ClientErr DescribeInstanceTypesResponse

instance instDecEqExcept {ε α : Type} [DecidableEq ε] [DecidableEq α] :
    DecidableEq (Except ε α) := fun a b =>
  match a, b with
  | Except.error e, Except.error f =>
    if h : e = f then isTrue (by rw [h]) else isFalse (by intro hh; cases hh; exact h rfl)
  | Except.error _, Except.ok _ => isFalse (by intro hh; cases hh)
  | Except.ok _, Except.error _ => isFalse (by intro hh; cases hh)
  | Except.ok x, Except.ok y =>
    if h : x = y then isTrue (by rw [h]) else isFalse (by intro hh; cases hh; exact h rfl)

/-- Result of running one wrapper method: the returned value or raised error,
the final tracked-instance field, the provider requests issued (in order),
the log lines emitted, and the lines printed to stdout. -/
structure OpOut (α : Type) where
  result : Except PyError α
  inst : Option InstanceRec
  reqs : List Request
  logs : List String
  output : List String
deriving Repr, DecidableEq

/-- Python dictionary access `d[key]` on an optional field: raises `KeyError`
when the key is absent. -/
def dget {α : Type} (v : Option α) (key : String) : Except PyError α :=
  match v with
  | some x => Except.ok x
  | none => Except.error (PyError.keyError key)

/-- Python list indexing `l[0]`: raises `IndexError` on an empty list. -/
def headE {α : Type} (l : List α) : Except PyError α :=
  match l with
  | [] => Except.error PyError.indexError
  | x :: _ => Except.ok x

/-- `"\t" * indent`. -/
def tabs (n : Nat) : String :=
  String.join (List.replicate n "\t")

/-- Error log line of `create` (apostrophes elided). -/
def createErrLog (image instance_type key_pair code msg : String) : String :=
  "Could not create instance with image " ++ image ++ ", instance type " ++
    instance_type ++ ", and key " ++ key_pair ++ ". Reason: " ++ code ++ ": " ++ msg

/-- Error log line of `display`. -/
def displayErrLog (code msg : String) : String :=
  "Could not display your instance. Reason: " ++ code ++ ": " ++ msg

/-- Error log line of `terminate`. -/
def terminateErrLog (instance_id code msg : String) : String :=
  "Could not terminate instance " ++ instance_id ++ ". Reason: " ++ code ++ ": " ++ msg

/-- Error log line of `start`. -/
def startErrLog (instance_id code msg : String) : String :=
  "Could not start instance " ++ instance_id ++ ". Reason: " ++ code ++ ": " ++ msg

/-- Error log line of `stop`. -/
def stopErrLog (instance_id code msg : String) : String :=
  "Could not stop instance " ++ instance_id ++ ". Reason: " ++ code ++ ": " ++ msg

/-- Error log line of `get_images`. -/
def getImagesErrLog (code msg : String) : String :=
  "Could not get images. Reason: " ++ code ++ ": " ++ msg

/-- Error log line of `get_instance_types`. -/
def getTypesErrLog (code msg : String) : String :=
  "Could not get instance types. Reason: " ++ code ++ ": " ++ msg

/-- The request dictionary built by `create` before calling `run_instances`,
with `MinCount=1, MaxCount=1` added at the call site. -/
def mkRunReq (image instance_type key_pair : String)
    (security_groups : Option (List String)) : RunReq :=
  { imageId := image, instanceType := instance_type, keyName := key_pair,
    securityGroupIds := security_groups, minCount := 1, maxCount := 1 }

namespace InstanceWrapper

/-- `InstanceWrapper.create(image, instance_type, key_pair, security_groups)`:
builds the request, calls `run_instances`, assigns `self.instance` to
`response["Instances"][0]`, waits on the `instance_running` waiter, and
returns the new instance id. A `ClientError` is logged and re-raised;
`KeyError` / `IndexError` escape unlogged. Note `self.instance` is assigned
before the waiter call, so a waiter failure leaves it set. -/
def create (c : EC2Client) (st : Option InstanceRec)
    (image instance_type key_pair : String)
    (security_groups : Option (List String)) : OpOut String :=
  let p := mkRunReq image instance_type key_pair security_groups
  match c.run_instances p with
  | Except.error ce =>
      { result := Except.error (PyError.client ce), inst := st,
        reqs := [Request.runInstances p],
        logs := [createErrLog image instance_type key_pair ce.code ce.message],
        output := [] }
  | Except.ok response =>
    match headE response.instances with
    | Except.error e =>
        { result := Except.error e, inst := st,
          reqs := [Request.runInstances p], logs := [], output := [] }
    | Except.ok newInst =>
      match dget newInst.instanceId "InstanceId" with
      | Except.error e =>
          { result := Except.error e, inst := some newInst,
            reqs := [Request.runInstances p], logs := [], output := [] }
      | Except.ok iid =>
        match c.waiterWait "instance_running" [iid] with
        | Except.error ce =>
            { result := Except.error (PyError.client ce), inst := some newInst,
              reqs := [Request.runInstances p,
                       Request.waiterWait "instance_running" [iid]],
              logs := [createErrLog image instance_type key_pair ce.code ce.message],
              output := [] }
        | Except.ok _ =>
            { result := Except.ok iid, inst := some newInst,
              reqs := [Request.runInstances p,
                       Request.waiterWait "instance_running" [iid]],
              logs := [], output := [] }

/-- The field printing of `display`: each `print(f"...{instance[key]}...")`
evaluates the dictionary lookup before printing, so on a missing key the
earlier lines have already been printed. Returns the printed lines and the
outcome (`KeyError` on the first missing key). -/
def displayFields (ind : String) (snap : InstanceRec) :
    List String × Except PyError Unit :=
  match snap.instanceId with
  | none => ([], Except.error (PyError.keyError "InstanceId"))
  | some v1 =>
  let l1 := ind ++ "ID: " ++ v1
  match snap.imageId with
  | none => ([l1], Except.error (PyError.keyError "ImageId"))
  | some v2 =>
  let l2 := ind ++ "Image ID: " ++ v2
  match snap.instanceType with
  | none => ([l1, l2], Except.error (PyError.keyError "InstanceType"))
  | some v3 =>
  let l3 := ind ++ "Instance type: " ++ v3
  match snap.keyName with
  | none => ([l1, l2, l3], Except.error (PyError.keyError "KeyName"))
  | some v4 =>
  let l4 := ind ++ "Key name: " ++ v4
  match snap.vpcId with
  | none => ([l1, l2, l3, l4], Except.error (PyError.keyError "VpcId"))
  | some v5 =>
  let l5 := ind ++ "VPC ID: " ++ v5
  match snap.publicIpAddress with
  | none => ([l1, l2, l3, l4, l5], Except.error (PyError.keyError "PublicIpAddress"))
  | some v6 =>
  let l6 := ind ++ "Public IP: " ++ v6
  match snap.state with
  | none => ([l1, l2, l3, l4, l5, l6], Except.error (PyError.keyError "State"))
  | some stRec =>
  match stRec.name with
  | none => ([l1, l2, l3, l4, l5, l6], Except.error (PyError.keyError "Name"))
  | some v7 =>
  ([l1, l2, l3, l4, l5, l6, ind ++ "State: " ++ v7], Except.ok ())

/-- `InstanceWrapper.display(indent)`: logged no-op when untracked; otherwise
fetches `describe_instances` for the tracked id, takes
`response["Reservations"][0]["Instances"][0]` and prints the seven fields.
Only `ClientError` is caught (logged, re-raised); the index and key lookups
are unguarded. -/
def display (c : EC2Client) (st : Option InstanceRec) (indent : Nat) :
    OpOut Unit :=
  match st with
  | none =>
      { result := Except.ok (), inst := none, reqs := [],
        logs := ["No instance to display."], output := [] }
  | some i =>
    match dget i.instanceId "InstanceId" with
    | Except.error e =>
        { result := Except.error e, inst := some i, reqs := [], logs := [],
          output := [] }
    | Except.ok iid =>
      match c.describe_instances [iid] with
      | Except.error ce =>
          { result := Except.error (PyError.client ce), inst := some i,
            reqs := [Request.describeInstances [iid]],
            logs := [displayErrLog ce.code ce.message], output := [] }
      | Except.ok response =>
        match headE response.reservations with
        | Except.error e =>
            { result := Except.error e, inst := some i,
              reqs := [Request.describeInstances [iid]], logs := [], output := [] }
        | Except.ok res0 =>
          match headE res0.instances with
          | Except.error e =>
              { result := Except.error e, inst := some i,
                reqs := [Request.describeInstances [iid]], logs := [], output := [] }
          | Except.ok snap =>
            let pr := displayFields (tabs indent) snap
            { result := pr.2, inst := some i,
              reqs := [Request.describeInstances [iid]], logs := [],
              output := pr.1 }

/-- `InstanceWrapper.terminate()`: logged no-op when untracked; otherwise
calls `terminate_instances`, waits on the `instance_terminated` waiter, and
only then clears `self.instance`. On `ClientError` the error is logged and
re-raised and the tracked reference is left unchanged. -/
def terminate (c : EC2Client) (st : Option InstanceRec) : OpOut Unit :=
  match st with
  | none =>
      { result := Except.ok (), inst := none, reqs := [],
        logs := ["No instance to terminate."], output := [] }
  | some i =>
    match dget i.instanceId "InstanceId" with
    | Except.error e =>
        { result := Except.error e, inst := some i, reqs := [], logs := [],
          output := [] }
    | Except.ok iid =>
      match c.terminate_instances [iid] with
      | Except.error ce =>
          { result := Except.error (PyError.client ce), inst := some i,
            reqs := [Request.terminateInstances [iid]],
            logs := [terminateErrLog iid ce.code ce.message], output := [] }
      | Except.ok _ =>
        match c.waiterWait "instance_terminated" [iid] with
        | Except.error ce =>
            { result := Except.error (PyError.client ce), inst := some i,
              reqs := [Request.terminateInstances [iid],
                       Request.waiterWait "instance_terminated" [iid]],
              logs := [terminateErrLog iid ce.code ce.message], output := [] }
        | Except.ok _ =>
            { result := Except.ok (), inst := none,
              reqs := [Request.terminateInstances [iid],
                       Request.waiterWait "instance_terminated" [iid]],
              logs := [], output := [] }

/-- `InstanceWrapper.start()`: logged no-op returning `None` when untracked;
otherwise calls `start_instances`, waits on the `instance_running` waiter,
and returns the raw `start_instances` response. -/
def start (c : EC2Client) (st : Option InstanceRec) :
    OpOut (Option ProviderResponse) :=
  match st with
  | none =>
      { result := Except.ok none, inst := none, reqs := [],
        logs := ["No instance to start."], output := [] }
  | some i =>
    match dget i.instanceId "InstanceId" with
    | Except.error e =>
        { result := Except.error e, inst := some i, reqs := [], logs := [],
          output := [] }
    | Except.ok iid =>
      match c.start_instances [iid] with
      | Except.error ce =>
          { result := Except.error (PyError.client ce), inst := some i,
            reqs := [Request.startInstances [iid]],
            logs := [startErrLog iid ce.code ce.message], output := [] }
      | Except.ok response =>
        match c.waiterWait "instance_running" [iid] with
        | Except.error ce =>
            { result := Except.error (PyError.client ce), inst := some i,
              reqs := [Request.startInstances [iid],
                       Request.waiterWait "instance_running" [iid]],
              logs := [startErrLog iid ce.code ce.message], output := [] }
        | Except.ok _ =>
            { result := Except.ok (some response), inst := some i,
              reqs := [Request.startInstances [iid],
                       Request.waiterWait "instance_running" [iid]],
              logs := [], output := [] }

/-- `InstanceWrapper.stop()`: logged no-op returning `None` when untracked;
otherwise calls `stop_instances`, waits on the `instance_stopped` waiter,
and returns the raw `stop_instances` response. -/
def stop (c : EC2Client) (st : Option InstanceRec) :
    OpOut (Option ProviderResponse) :=
  match st with
  | none =>
      { result := Except.ok none, inst := none, reqs := [],
        logs := ["No instance to stop."], output := [] }
  | some i =>
    match dget i.instanceId "InstanceId" with
    | Except.error e =>
        { result := Except.error e, inst := some i, reqs := [], logs := [],
          output := [] }
    | Except.ok iid =>
      match c.stop_instances [iid] with
      | Except.error ce =>
          { result := Except.error (PyError.client ce), inst := some i,
            reqs := [Request.stopInstances [iid]],
            logs := [stopErrLog iid ce.code ce.message], output := [] }
      | Except.ok response =>
        match c.waiterWait "instance_stopped" [iid] with
        | Except.error ce =>
            { result := Except.error (PyError.client ce), inst := some i,
              reqs := [Request.stopInstances [iid],
                       Request.waiterWait "instance_stopped" [iid]],
              logs := [stopErrLog iid ce.code ce.message], output := [] }
        | Except.ok _ =>
            { result := Except.ok (some response), inst := some i,
              reqs := [Request.stopInstances [iid],
                       Request.waiterWait "instance_stopped" [iid]],
              logs := [], output := [] }

/-- `InstanceWrapper.get_images(image_ids)`: forwards the id list to
`describe_images` and returns `response["Images"]`. -/
def get_images (c : EC2Client) (st : Option InstanceRec)
    (image_ids : List String) : OpOut (List Image) :=
  match c.describe_images image_ids with
  | Except.error ce =>
      { result := Except.error (PyError.client ce), inst := st,
        reqs := [Request.describeImages image_ids],
        logs := [getImagesErrLog ce.code ce.message], output := [] }
  | Except.ok response =>
      { result := Except.ok response.images, inst := st,
        reqs := [Request.describeImages image_ids], logs := [], output := [] }

end InstanceWrapper

/-- The filter list `get_instance_types` passes to `describe_instance_types`:
the architecture filter and the `*.micro` / `*.small` name filter. -/
def typeFilters (architecture : String) : List ApiFilter :=
  [{ name := "processor-info.supported-architecture", values := [architecture] },
   { name := "instance-type", values := ["*.micro", "*.small"] }]

/-- The list comprehension `[it["InstanceType"] for it in response["InstanceTypes"]]`:
left to right, raising `KeyError` at the first record missing the key. -/
def namesOf : List InstanceTypeInfo → Except PyError (List String)
  | [] => Except.ok []
  | it :: rest =>
    match it.instanceType with
    | none => Except.error (PyError.keyError "InstanceType")
    | some n =>
      match namesOf rest with
      | Except.error e => Except.error e
      | Except.ok ns => Except.ok (n :: ns)

namespace InstanceWrapper

/-- `InstanceWrapper.get_instance_types(architecture)`: queries
`describe_instance_types` with the architecture and `*.micro`/`*.small`
filters and returns the `InstanceType` names of the response. -/
def get_instance_types (c : EC2Client) (st : Option InstanceRec)
    (architecture : String) : OpOut (List String) :=
  match c.describe_instance_types (typeFilters architecture) with
  | Except.error ce =>
      { result := Except.error (PyError.client ce), inst := st,
        reqs := [Request.describeInstanceTypes (typeFilters architecture)],
        logs := [getTypesErrLog ce.code ce.message], output := [] }
  | Except.ok response =>
    match namesOf response.instanceTypes with
    | Except.error e =>
        { result := Except.error e, inst := st,
          reqs := [Request.describeInstanceTypes (typeFilters architecture)],
          logs := [], output := [] }
    | Except.ok names =>
        { result := Except.ok names, inst := st,
          reqs := [Request.describeInstanceTypes (typeFilters architecture)],
          logs := [], output := [] }

end InstanceWrapper

/-- String suffix test over the character lists (kernel-evaluable). -/
def strEndsWith (s suffix : String) : Bool :=
  suffix.data.isSuffixOf s.data

/-- Modelled from the spec: the provider-side wildcard match used by the
`instance-type` name filter. The patterns the wrapper sends (`*.micro`,
`*.small`) are a leading `*` followed by a literal suffix. -/
def globMatches (pattern s : String) : Bool :=
  match pattern.data with
  | '*' :: rest => rest.isSuffixOf s.data
  | _ => pattern == s

/-- Modelled from the spec: whether one instance-type record satisfies one
filter of a `describe_instance_types` query. The architecture filter holds
when some supported architecture is among the filter values; the
`instance-type` filter holds when the type name matches some pattern. -/
def matchesFilter (it : InstanceTypeInfo) (f : ApiFilter) : Bool :=
  if f.name = "processor-info.supported-architecture" then
    it.supportedArchitectures.any (fun a => f.values.any (fun v => v == a))
  else if f.name = "instance-type" then
    match it.instanceType with
    | some n => f.values.any (fun pat => globMatches pat n)
    | none => false
  else true

/-- Modelled from the spec: a provider that honours filters, returning only
instance-type records matching every filter of the query. -/
def FilterFaithful (c : EC2Client) : Prop :=
  ∀ fs resp, c.describe_instance_types fs = Except.ok resp →
    ∀ it ∈ resp.instanceTypes, ∀ f ∈ fs, matchesFilter it f = true

/-- An instance record carrying only an id, as a minimal tracked instance. -/
def bareInst (iid : String) : InstanceRec :=
  { instanceId := some iid, imageId := none, instanceType := none,
    keyName := none, vpcId := none, publicIpAddress := none, state := none }

/-- A fully populated instance snapshot, as `describe_instances` returns for
a healthy instance. -/
def fullSnap : InstanceRec :=
  { instanceId := some "i-123", imageId := some "ami-9",
    instanceType := some "t2.micro", keyName := some "kp",
    vpcId := some "vpc-1", publicIpAddress := some "1.2.3.4",
    state := some { name := some "running" } }

/-- An instance snapshot missing the `PublicIpAddress` key. -/
def badIpSnap : InstanceRec :=
  { instanceId := some "i-123", imageId := some "ami-9",
    instanceType := some "t2.micro", keyName := some "kp",
    vpcId := some "vpc-1", publicIpAddress := none,
    state := some { name := some "running" } }

/-- A client whose every call fails: the base for the concrete clients below. -/
def cUnused : EC2Client :=
  { run_instances := fun _ => Except.error { code := "Unused", message := "unused" },
    waiterWait := fun _ _ => Except.error { code := "Unused", message := "unused" },
    describe_instances := fun _ => Except.error { code := "Unused", message := "unused" },
    terminate_instances := fun _ => Except.error { code := "Unused", message := "unused" },
    start_instances := fun _ => Except.error { code := "Unused", message := "unused" },
    stop_instances := fun _ => Except.error { code := "Unused", message := "unused" },
    describe_images := fun _ => Except.error { code := "Unused", message := "unused" },
    describe_instance_types := fun _ => Except.error { code := "Unused", message := "unused" } }

/-- A healthy client: every call succeeds with fixed responses. -/
def cOk : EC2Client :=
  { run_instances := fun _ => Except.ok { instances := [fullSnap] },
    waiterWait := fun _ _ => Except.ok (),
    describe_instances := fun _ => Except.ok { reservations := [{ instances := [fullSnap] }] },
    terminate_instances := fun _ => Except.ok { payload := "terminate-response" },
    start_instances := fun _ => Except.ok { payload := "start-response" },
    stop_instances := fun _ => Except.ok { payload := "stop-response" },
    describe_images := fun ids => Except.ok { images := ids.map (fun i => { imageId := i }) },
    describe_instance_types := fun _ => Except.ok { instanceTypes := [] } }

/-- A client whose `run_instances` is rejected by the provider. -/
def cRunFail : EC2Client :=
  { cUnused with
    run_instances := fun _ =>
      Except.error { code := "InvalidAMIID.NotFound", message := "image not found" } }

/-- A client whose `run_instances` succeeds but whose waiter fails. -/
def cWaitFail : EC2Client :=
  { cUnused with
    run_instances := fun _ => Except.ok { instances := [bareInst "i-0"] },
    waiterWait := fun _ _ =>
      Except.error { code := "WaiterError", message := "wait failed" } }

/-- A client whose `terminate_instances` is rejected by the provider. -/
def cTermFail : EC2Client :=
  { cUnused with
    terminate_instances := fun _ =>
      Except.error { code := "TerminateError", message := "cannot terminate" } }

/-- A client whose `describe_instances` returns a snapshot missing the
`PublicIpAddress` key. -/
def cBadIp : EC2Client :=
  { cUnused with
    describe_instances := fun _ =>
      Except.ok { reservations := [{ instances := [badIpSnap] }] } }

/-- A client whose `describe_instances` returns an empty `Reservations` list. -/
def cEmptyRes : EC2Client :=
  { cUnused with
    describe_instances := fun _ => Except.ok { reservations := [] } }

/-- A client returning empty image and instance-type listings. -/
def cEmptyLists : EC2Client :=
  { cUnused with
    describe_images := fun _ => Except.ok { images := [] },
    describe_instance_types := fun _ => Except.ok { instanceTypes := [] } }

/-- A `t2.micro` record supporting the `x86_64` architecture. -/
def itMicro : InstanceTypeInfo :=
  { instanceType := some "t2.micro", supportedArchitectures := ["x86_64"] }

/-- A filter-honouring client: answers the `x86_64` query with `t2.micro`
and every other query with an empty listing. -/
def cTypes : EC2Client :=
  { cUnused with
    describe_instance_types := fun fs =>
      if fs = typeFilters "x86_64" then Except.ok { instanceTypes := [itMicro] }
      else Except.ok { instanceTypes := [] } }

/-! ## Helper lemmas -/

/-- Every name produced by the `InstanceType` comprehension comes from some
record of the response. -/
theorem namesOf_mem (l : List InstanceTypeInfo) (names : List String)
    (h : namesOf l = Except.ok names) (nm : String) (hn : nm ∈ names) :
    ∃ it ∈ l, it.instanceType = some nm := by
  induction l generalizing names with
  | nil =>
    unfold namesOf at h
    cases h
    simp at hn
  | cons it rest ih =>
    unfold namesOf at h
    rcases hty : it.instanceType with _ | tn
    · rw [hty] at h; cases h
    · rw [hty] at h
      rcases hr : namesOf rest with e | ns
      · rw [hr] at h; cases h
      · rw [hr] at h
        cases h
        rcases List.mem_cons.mp hn with h | h
        · exact ⟨it, List.mem_cons_self it rest, by rw [hty, h]⟩
        · obtain ⟨it2, hmem, hty2⟩ := ih ns hr h
          exact ⟨it2, List.mem_cons_of_mem it hmem, hty2⟩

/-- The `*.micro` pattern matches exactly the `.micro`-suffixed names. -/
theorem glob_micro (s : String) : globMatches "*.micro" s = strEndsWith s ".micro" := rfl

/-- The `*.small` pattern matches exactly the `.small`-suffixed names. -/
theorem glob_small (s : String) : globMatches "*.small" s = strEndsWith s ".small" := rfl

/-- The concrete client `cTypes` honours filters. -/
theorem cTypes_faithful : FilterFaithful cTypes := by
  intro fs resp h it hit f hf
  by_cases hq : fs = typeFilters "x86_64"
  · subst hq
    have hr : cTypes.describe_instance_types (typeFilters "x86_64") =
        Except.ok { instanceTypes := [itMicro] } := by decide
    rw [hr] at h
    cases h
    simp only [List.mem_singleton] at hit
    subst hit
    simp only [typeFilters, List.mem_cons, List.mem_singleton, List.not_mem_nil, or_false] at hf
    rcases hf with rfl | rfl <;> decide
  · have hr : cTypes.describe_instance_types fs = Except.ok { instanceTypes := [] } := by
      simp [cTypes, hq]
    rw [hr] at h
    cases h
    simp at hit

/-! ## Claims -/

/-- C1 (counterexample): a provider failure of the wait-for-running during
`create` raises a `ProviderRequestError` but leaves the tracked instance
reference SET to the new instance — not unset as claimed. -/
theorem C1_counterexample :
    (InstanceWrapper.create cWaitFail none "ami-1" "t2.micro" "k" none).result =
      Except.error (PyError.client { code := "WaiterError", message := "wait failed" }) ∧
    (InstanceWrapper.create cWaitFail none "ami-1" "t2.micro" "k" none).inst =
      some (bareInst "i-0") :=
  ⟨by decide, by decide⟩

/-- C1 (amended): on a provider failure of the run-instances request itself,
`create` raises a `ProviderRequestError` and leaves the tracked reference
unchanged (unset if it was unset); on a provider failure of the
wait-for-running, `create` raises a `ProviderRequestError` but the tracked
reference has already been set to the new instance record. -/
theorem C1_create_failure (c : EC2Client) (st : Option InstanceRec)
    (image instance_type key_pair : String) (security_groups : Option (List String))
    (ce : ClientErr) (resp : RunInstancesResponse) (newInst : InstanceRec)
    (rest : List InstanceRec) (iid : String) :
    (c.run_instances (mkRunReq image instance_type key_pair security_groups) =
        Except.error ce →
      (InstanceWrapper.create c st image instance_type key_pair security_groups).result =
        Except.error (PyError.client ce) ∧
      (InstanceWrapper.create c st image instance_type key_pair security_groups).inst = st) ∧
    (c.run_instances (mkRunReq image instance_type key_pair security_groups) =
        Except.ok resp →
      resp.instances = newInst :: rest →
      newInst.instanceId = some iid →
      c.waiterWait "instance_running" [iid] = Except.error ce →
      (InstanceWrapper.create c st image instance_type key_pair security_groups).result =
        Except.error (PyError.client ce) ∧
      (InstanceWrapper.create c st image instance_type key_pair security_groups).inst =
        some newInst) := by
  constructor
  · intro h
    unfold InstanceWrapper.create
    simp [h]
  · intro h1 h2 h3 h4
    unfold InstanceWrapper.create
    simp [h1, h2, headE, dget, h3, h4]

/-- C1 (witness): both failure branches at concrete clients. -/
theorem C1_create_failure_witness :
    ((InstanceWrapper.create cRunFail none "ami-1" "t2.micro" "k" none).result =
        Except.error (PyError.client { code := "InvalidAMIID.NotFound", message := "image not found" }) ∧
      (InstanceWrapper.create cRunFail none "ami-1" "t2.micro" "k" none).inst = none) ∧
    ((InstanceWrapper.create cWaitFail none "ami-1" "t2.micro" "k" none).result =
        Except.error (PyError.client { code := "WaiterError", message := "wait failed" }) ∧
      (InstanceWrapper.create cWaitFail none "ami-1" "t2.micro" "k" none).inst =
        some (bareInst "i-0")) :=
  ⟨(C1_create_failure cRunFail none "ami-1" "t2.micro" "k" none
      { code := "InvalidAMIID.NotFound", message := "image not found" }
      { instances := [] } (bareInst "i-0") [] "i-0").1 rfl,
   (C1_create_failure cWaitFail none "ami-1" "t2.micro" "k" none
      { code := "WaiterError", message := "wait failed" }
      { instances := [bareInst "i-0"] } (bareInst "i-0") [] "i-0").2 rfl rfl rfl rfl⟩

/-- C2: a successful `create` sends the given image, type and key-pair name,
includes the security-group list exactly as supplied (optional), asks for
exactly one instance, waits on the `instance_running` waiter for the new
instance id, stores the resulting record as the tracked reference, and
returns that instance's non-empty identifier. -/
theorem C2_create_success (c : EC2Client) (st : Option InstanceRec)
    (image instance_type key_pair : String) (security_groups : Option (List String))
    (resp : RunInstancesResponse) (newInst : InstanceRec) (rest : List InstanceRec)
    (iid : String)
    (hrun : c.run_instances (mkRunReq image instance_type key_pair security_groups) =
      Except.ok resp)
    (hinsts : resp.instances = newInst :: rest)
    (hid : newInst.instanceId = some iid)
    (hne : iid ≠ "")
    (hw : c.waiterWait "instance_running" [iid] = Except.ok ()) :
    (InstanceWrapper.create c st image instance_type key_pair security_groups).result =
      Except.ok iid ∧
    iid ≠ "" ∧
    (InstanceWrapper.create c st image instance_type key_pair security_groups).inst =
      some newInst ∧
    (InstanceWrapper.create c st image instance_type key_pair security_groups).reqs =
      [Request.runInstances (mkRunReq image instance_type key_pair security_groups),
       Request.waiterWait "instance_running" [iid]] ∧
    (mkRunReq image instance_type key_pair security_groups).imageId = image ∧
    (mkRunReq image instance_type key_pair security_groups).instanceType = instance_type ∧
    (mkRunReq image instance_type key_pair security_groups).keyName = key_pair ∧
    (mkRunReq image instance_type key_pair security_groups).securityGroupIds =
      security_groups ∧
    (mkRunReq image instance_type key_pair security_groups).minCount = 1 ∧
    (mkRunReq image instance_type key_pair security_groups).maxCount = 1 := by
  unfold InstanceWrapper.create
  simp only [mkRunReq] at hrun
  simp [hrun, hinsts, headE, dget, hid, hw, hne, mkRunReq]

/-- C2 (witness): a successful `create` on the healthy client. -/
theorem C2_create_success_witness :
    (InstanceWrapper.create cOk none "ami-9" "t2.micro" "kp" (some ["sg-1"])).result =
      Except.ok "i-123" ∧
    ("i-123" : String) ≠ "" ∧
    (InstanceWrapper.create cOk none "ami-9" "t2.micro" "kp" (some ["sg-1"])).inst =
      some fullSnap ∧
    (InstanceWrapper.create cOk none "ami-9" "t2.micro" "kp" (some ["sg-1"])).reqs =
      [Request.runInstances (mkRunReq "ami-9" "t2.micro" "kp" (some ["sg-1"])),
       Request.waiterWait "instance_running" ["i-123"]] ∧
    (mkRunReq "ami-9" "t2.micro" "kp" (some ["sg-1"])).imageId = "ami-9" ∧
    (mkRunReq "ami-9" "t2.micro" "kp" (some ["sg-1"])).instanceType = "t2.micro" ∧
    (mkRunReq "ami-9" "t2.micro" "kp" (some ["sg-1"])).keyName = "kp" ∧
    (mkRunReq "ami-9" "t2.micro" "kp" (some ["sg-1"])).securityGroupIds = some ["sg-1"] ∧
    (mkRunReq "ami-9" "t2.micro" "kp" (some ["sg-1"])).minCount = 1 ∧
    (mkRunReq "ami-9" "t2.micro" "kp" (some ["sg-1"])).maxCount = 1 :=
  C2_create_success cOk none "ami-9" "t2.micro" "kp" (some ["sg-1"])
    { instances := [fullSnap] } fullSnap [] "i-123" rfl rfl rfl (by decide) rfl

/-- C3: the tracked instance reference is a frame for the read operations —
`display`, `get_images`, `get_instance_types`, `start` and `stop` leave it
unchanged — and `terminate` clears it exactly when it returns successfully
(so after a successful `create` and `terminate` it is unset), leaving it
unchanged otherwise. -/
theorem C3_tracked_reference_frame (c : EC2Client) (st : Option InstanceRec)
    (n : Nat) (ids : List String) (arch : String) :
    (InstanceWrapper.display c st n).inst = st ∧
    (InstanceWrapper.get_images c st ids).inst = st ∧
    (InstanceWrapper.get_instance_types c st arch).inst = st ∧
    (InstanceWrapper.start c st).inst = st ∧
    (InstanceWrapper.stop c st).inst = st ∧
    (InstanceWrapper.terminate c st).inst =
      (if (InstanceWrapper.terminate c st).result = Except.ok () then none else st) := by
  refine ⟨?_, ?_, ?_, ?_, ?_, ?_⟩
  · unfold InstanceWrapper.display
    repeat' split
    all_goals (first | rfl | simp_all)
  · unfold InstanceWrapper.get_images
    split <;> rfl
  · unfold InstanceWrapper.get_instance_types
    repeat' split
    all_goals (first | rfl | simp_all)
  · unfold InstanceWrapper.start
    repeat' split
    all_goals (first | rfl | simp_all)
  · unfold InstanceWrapper.stop
    repeat' split
    all_goals (first | rfl | simp_all)
  · unfold InstanceWrapper.terminate
    repeat' split
    all_goals (first | rfl | simp_all)

/-- C4: with no tracked instance, `start`, `stop`, `display` and `terminate`
are logged no-ops: they return without error, issue no provider request, and
leave the Manager state unchanged. -/
theorem C4_untracked_noop (c : EC2Client) (n : Nat) :
    InstanceWrapper.start c none =
      { result := Except.ok none, inst := none, reqs := [],
        logs := ["No instance to start."], output := [] } ∧
    InstanceWrapper.stop c none =
      { result := Except.ok none, inst := none, reqs := [],
        logs := ["No instance to stop."], output := [] } ∧
    InstanceWrapper.display c none n =
      { result := Except.ok (), inst := none, reqs := [],
        logs := ["No instance to display."], output := [] } ∧
    InstanceWrapper.terminate c none =
      { result := Except.ok (), inst := none, reqs := [],
        logs := ["No instance to terminate."], output := [] } :=
  ⟨rfl, rfl, rfl, rfl⟩

/-- C5: a provider failure during `terminate` (terminate request or
wait-for-terminated) is logged and re-raised, and the tracked instance
reference is left unchanged, still referring to the instance. -/
theorem C5_terminate_failure_keeps_reference (c : EC2Client) (i : InstanceRec)
    (iid : String) (ce : ClientErr)
    (hid : i.instanceId = some iid)
    (hfail : c.terminate_instances [iid] = Except.error ce ∨
      ((∃ pr, c.terminate_instances [iid] = Except.ok pr) ∧
        c.waiterWait "instance_terminated" [iid] = Except.error ce)) :
    (InstanceWrapper.terminate c (some i)).result = Except.error (PyError.client ce) ∧
    (InstanceWrapper.terminate c (some i)).inst = some i ∧
    (InstanceWrapper.terminate c (some i)).logs =
      [terminateErrLog iid ce.code ce.message] := by
  unfold InstanceWrapper.terminate
  rcases hfail with h | ⟨⟨pr, hok⟩, hw⟩
  · simp [dget, hid, h]
  · simp [dget, hid, hok, hw]

/-- C5 (witness): a rejected terminate request on a concrete client. -/
theorem C5_terminate_failure_witness :
    (InstanceWrapper.terminate cTermFail (some (bareInst "i-9"))).result =
      Except.error (PyError.client { code := "TerminateError", message := "cannot terminate" }) ∧
    (InstanceWrapper.terminate cTermFail (some (bareInst "i-9"))).inst =
      some (bareInst "i-9") ∧
    (InstanceWrapper.terminate cTermFail (some (bareInst "i-9"))).logs =
      [terminateErrLog "i-9" "TerminateError" "cannot terminate"] :=
  C5_terminate_failure_keeps_reference cTermFail (bareInst "i-9") "i-9"
    { code := "TerminateError", message := "cannot terminate" } rfl (Or.inl rfl)

/-- C6: with a tracked instance, `start` (resp. `stop`) issues the
corresponding request for the tracked id, waits for the running
(resp. stopped) state, and returns the raw provider response; with no
tracked instance each returns nothing. -/
theorem C6_start_stop_response (c : EC2Client) (i : InstanceRec) (iid : String)
    (rs rp : ProviderResponse)
    (hid : i.instanceId = some iid)
    (hs : c.start_instances [iid] = Except.ok rs)
    (hws : c.waiterWait "instance_running" [iid] = Except.ok ())
    (hp : c.stop_instances [iid] = Except.ok rp)
    (hwp : c.waiterWait "instance_stopped" [iid] = Except.ok ()) :
    InstanceWrapper.start c (some i) =
      { result := Except.ok (some rs), inst := some i,
        reqs := [Request.startInstances [iid],
                 Request.waiterWait "instance_running" [iid]],
        logs := [], output := [] } ∧
    InstanceWrapper.stop c (some i) =
      { result := Except.ok (some rp), inst := some i,
        reqs := [Request.stopInstances [iid],
                 Request.waiterWait "instance_stopped" [iid]],
        logs := [], output := [] } ∧
    (InstanceWrapper.start c none).result = Except.ok none ∧
    (InstanceWrapper.stop c none).result = Except.ok none := by
  refine ⟨?_, ?_, rfl, rfl⟩
  · unfold InstanceWrapper.start
    simp [dget, hid, hs, hws]
  · unfold InstanceWrapper.stop
    simp [dget, hid, hp, hwp]

/-- C6 (witness): `start` and `stop` on the healthy client. -/
theorem C6_start_stop_response_witness :
    InstanceWrapper.start cOk (some (bareInst "i-7")) =
      { result := Except.ok (some { payload := "start-response" }),
        inst := some (bareInst "i-7"),
        reqs := [Request.startInstances ["i-7"],
                 Request.waiterWait "instance_running" ["i-7"]],
        logs := [], output := [] } ∧
    InstanceWrapper.stop cOk (some (bareInst "i-7")) =
      { result := Except.ok (some { payload := "stop-response" }),
        inst := some (bareInst "i-7"),
        reqs := [Request.stopInstances ["i-7"],
                 Request.waiterWait "instance_stopped" ["i-7"]],
        logs := [], output := [] } ∧
    (InstanceWrapper.start cOk none).result = Except.ok none ∧
    (InstanceWrapper.stop cOk none).result = Except.ok none :=
  C6_start_stop_response cOk (bareInst "i-7") "i-7"
    { payload := "start-response" } { payload := "stop-response" }
    rfl rfl rfl rfl rfl

/-- C7: with a tracked instance, `display` re-fetches the snapshot by the
tracked id and prints exactly the seven fields — id, image id, type, key
name, network id, public address, state name — each line indented by the
given level, and mutates no state. -/
theorem C7_display_fixed_fields (c : EC2Client) (i : InstanceRec) (iid : String)
    (resp : DescribeInstancesResponse) (res0 : Reservation) (snap : InstanceRec)
    (rrest : List Reservation) (irest : List InstanceRec)
    (v1 v2 v3 v4 v5 v6 v7 : String) (n : Nat)
    (hid : i.instanceId = some iid)
    (hresp : c.describe_instances [iid] = Except.ok resp)
    (hres : resp.reservations = res0 :: rrest)
    (hinsts : res0.instances = snap :: irest)
    (h1 : snap.instanceId = some v1) (h2 : snap.imageId = some v2)
    (h3 : snap.instanceType = some v3) (h4 : snap.keyName = some v4)
    (h5 : snap.vpcId = some v5) (h6 : snap.publicIpAddress = some v6)
    (h7 : snap.state = some { name := some v7 }) :
    InstanceWrapper.display c (some i) n =
      { result := Except.ok (), inst := some i,
        reqs := [Request.describeInstances [iid]], logs := [],
        output := [tabs n ++ "ID: " ++ v1, tabs n ++ "Image ID: " ++ v2,
                   tabs n ++ "Instance type: " ++ v3, tabs n ++ "Key name: " ++ v4,
                   tabs n ++ "VPC ID: " ++ v5, tabs n ++ "Public IP: " ++ v6,
                   tabs n ++ "State: " ++ v7] } := by
  unfold InstanceWrapper.display InstanceWrapper.displayFields
  simp [dget, hid, hresp, hres, hinsts, headE, h1, h2, h3, h4, h5, h6, h7]

/-- C7 (witness): `display` of the fully populated snapshot. -/
theorem C7_display_fixed_fields_witness :
    InstanceWrapper.display cOk (some (bareInst "i-123")) 2 =
      { result := Except.ok (), inst := some (bareInst "i-123"),
        reqs := [Request.describeInstances ["i-123"]], logs := [],
        output := [tabs 2 ++ "ID: " ++ "i-123", tabs 2 ++ "Image ID: " ++ "ami-9",
                   tabs 2 ++ "Instance type: " ++ "t2.micro",
                   tabs 2 ++ "Key name: " ++ "kp",
                   tabs 2 ++ "VPC ID: " ++ "vpc-1",
                   tabs 2 ++ "Public IP: " ++ "1.2.3.4",
                   tabs 2 ++ "State: " ++ "running"] } :=
  C7_display_fixed_fields cOk (bareInst "i-123") "i-123"
    { reservations := [{ instances := [fullSnap] }] } { instances := [fullSnap] }
    fullSnap [] [] "i-123" "ami-9" "t2.micro" "kp" "vpc-1" "1.2.3.4" "running" 2
    rfl rfl rfl rfl rfl rfl rfl rfl rfl rfl rfl

/-- C8: against a filter-honouring provider, every type name returned by
`get_instance_types` ends in the `.micro` or `.small` size class and comes
from a record supporting the requested architecture; no other size class
appears. -/
theorem C8_instance_types_micro_small (c : EC2Client) (st : Option InstanceRec)
    (arch : String) (resp : DescribeInstanceTypesResponse) (names : List String)
    (nm : String)
    (hf : FilterFaithful c)
    (hresp : c.describe_instance_types (typeFilters arch) = Except.ok resp)
    (hres : (InstanceWrapper.get_instance_types c st arch).result = Except.ok names)
    (hn : nm ∈ names) :
    (strEndsWith nm ".micro" = true ∨ strEndsWith nm ".small" = true) ∧
    ∃ it ∈ resp.instanceTypes, it.instanceType = some nm ∧
      arch ∈ it.supportedArchitectures := by
  have hnames : namesOf resp.instanceTypes = Except.ok names := by
    rcases hno : namesOf resp.instanceTypes with e | ns
    · simp [InstanceWrapper.get_instance_types, hresp, hno] at hres
    · simp [InstanceWrapper.get_instance_types, hresp, hno] at hres
      rw [hres]
  obtain ⟨it, hmem, hty⟩ := namesOf_mem _ _ hnames nm hn
  have harch := hf _ _ hresp it hmem
    { name := "processor-info.supported-architecture", values := [arch] }
    (by simp [typeFilters])
  have hname := hf _ _ hresp it hmem
    { name := "instance-type", values := ["*.micro", "*.small"] }
    (by simp [typeFilters])
  constructor
  · unfold matchesFilter at hname
    rw [if_neg (by decide), if_pos rfl] at hname
    rw [hty] at hname
    simp only [List.any_cons, List.any_nil, Bool.or_false, Bool.or_eq_true,
      glob_micro, glob_small] at hname
    exact hname
  · refine ⟨it, hmem, hty, ?_⟩
    unfold matchesFilter at harch
    rw [if_pos rfl] at harch
    simp only [List.any_eq_true, List.mem_singleton, beq_iff_eq] at harch
    obtain ⟨a, ha, haeq⟩ := harch
    obtain ⟨v, hv, hveq⟩ := haeq
    rw [hv] at hveq
    rw [hveq] at hv
    exact hveq ▸ ha

/-- C8 (witness): the filter-honouring client returning `t2.micro`. -/
theorem C8_instance_types_micro_small_witness :
    (strEndsWith "t2.micro" ".micro" = true ∨ strEndsWith "t2.micro" ".small" = true) ∧
    ∃ it ∈ ({ instanceTypes := [itMicro] } : DescribeInstanceTypesResponse).instanceTypes,
      it.instanceType = some "t2.micro" ∧ "x86_64" ∈ it.supportedArchitectures :=
  C8_instance_types_micro_small cTypes none "x86_64" { instanceTypes := [itMicro] }
    ["t2.micro"] "t2.micro" cTypes_faithful (by decide) (by decide) (by decide)

/-- C9: `get_images` with an empty id list and `get_instance_types` with an
architecture the provider matches nothing against both return an empty list
rather than raising. -/
theorem C9_empty_listings (c : EC2Client) (st : Option InstanceRec) (arch : String)
    (hImg : c.describe_images [] = Except.ok { images := [] })
    (hTyp : c.describe_instance_types (typeFilters arch) =
      Except.ok { instanceTypes := [] }) :
    (InstanceWrapper.get_images c st []).result = Except.ok [] ∧
    (InstanceWrapper.get_instance_types c st arch).result = Except.ok [] := by
  constructor
  · unfold InstanceWrapper.get_images
    rw [hImg]
  · unfold InstanceWrapper.get_instance_types
    rw [hTyp]
    rfl

/-- C9 (witness): the empty-listing client at a matchless architecture. -/
theorem C9_empty_listings_witness :
    (InstanceWrapper.get_images cEmptyLists none []).result = Except.ok [] ∧
    (InstanceWrapper.get_instance_types cEmptyLists none "sparc").result =
      Except.ok [] :=
  C9_empty_listings cEmptyLists none "sparc" rfl rfl

/-- C10: there are provider response shapes — an empty reservation list, or a
record missing the public IP address — on which `display` with a tracked
instance fails with an unguarded `IndexError` / `KeyError` rather than a
`ProviderRequestError`, in the key-error case after having already printed
the five earlier fields. -/
theorem C10_display_unguarded_lookup :
    (InstanceWrapper.display cBadIp (some (bareInst "i-123")) 1).result =
      Except.error (PyError.keyError "PublicIpAddress") ∧
    (InstanceWrapper.display cBadIp (some (bareInst "i-123")) 1).output =
      ["\tID: i-123", "\tImage ID: ami-9", "\tInstance type: t2.micro",
       "\tKey name: kp", "\tVPC ID: vpc-1"] ∧
    (InstanceWrapper.display cEmptyRes (some (bareInst "i-123")) 1).result =
      Except.error PyError.indexError ∧
    (InstanceWrapper.display cEmptyRes (some (bareInst "i-123")) 1).output = [] :=
  ⟨by decide, by decide, by decide, by decide⟩
